import Mathlib

/-!
Shallow embedding of the SWF-container parser of this repository
(src/source/swf_parse.c, src/source/swf_tags.c) and verification of its
specification claims.

Modelling conventions:
* a byte buffer is a `List Nat`; each stored value is a `uint8_t`, so every
  read goes through `byteAt`, which reduces modulo 256 (and yields 0 past the
  end of the buffer, which only happens where the C code itself guards the
  access or substitutes 0);
* `uint32_t` arithmetic is `Nat` arithmetic with explicit `% 4294967296`;
  `int32_t` values are `Int` (produced by `int32OfUInt32`);
* file I/O is abstracted by handing the functions the file's byte contents;
  the zlib inflate loop interacts with an abstract decompressor
  (`InflateOutcome`): zlib itself is an external library, not code of this
  repository, so only the repository's handling of its three observable
  outcomes (stream finished / corrupt data / input exhausted early) is
  modelled;
* `scan_stream`'s C `while` loop and its recursion into sprite payloads are
  expressed with a fuel parameter consuming one unit per record processed.
  The cursor `pos` and the stream length are `size_t` and the record size is
  `uint32_t`; the code targets the Nintendo 3DS (32-bit ARM, libctru), where
  all three are 32 bits wide, so every addition involving them wraps modulo
  2^32 and the model says so explicitly.  When no length-check wraps, each
  record consumes at least two stream bytes and fuel equal to the buffer
  length (as the `swf_scan_tags` wrappers pass) cannot run out; a wrapped
  length check, however, lets the C loop revisit earlier positions and fail
  to terminate (see claim C2), which the model renders as running out of
  fuel.
-/

namespace Swf

/-- Read one byte of a buffer: `uint8_t` access, 0 past the end (the C code
only reads past-the-end positions where it explicitly substitutes 0). -/
def byteAt (b : List Nat) (i : Nat) : Nat := b.getD i 0 % 256

/-- `u16le` of swf_tags.c / `read_u16_le` of swf_parse.c. -/
def u16le (b : List Nat) (i : Nat) : Nat := byteAt b i + byteAt b (i + 1) * 256

/-- `u32le` of swf_tags.c / `read_u32_le` of swf_parse.c. -/
def u32le (b : List Nat) (i : Nat) : Nat :=
  byteAt b i + byteAt b (i + 1) * 256 + byteAt b (i + 2) * 65536 +
    byteAt b (i + 3) * 16777216

/-- The `BitReader` (swf_parse.c) / `BR` (swf_tags.c) state: buffer plus bit
cursor.  The C struct's `len`/`n` field always equals the length of the byte
array handed to it, so it is represented by `buf.length`. -/
structure BitReader where
  buf : List Nat
  bitpos : Nat
deriving DecidableEq, Repr

/-- Loop body of `br_read_bits` (swf_parse.c) / `br_bits` (swf_tags.c):
`v = (v << 1) | ((x >> bi) & 1)` on `uint32_t`, where `x` is the current
byte when in range and 0 otherwise. -/
def br_read_bits_aux (buf : List Nat) : Nat → Nat → Nat → Nat × Nat
  | bitpos, v, 0 => (v, bitpos)
  | bitpos, v, n + 1 =>
    let byte_i := bitpos / 8
    let bit_i := 7 - bitpos % 8
    let b := if byte_i < buf.length then byteAt buf byte_i else 0
    br_read_bits_aux buf (bitpos + 1)
      (((v <<< 1) % 4294967296) ||| ((b >>> bit_i) &&& 1)) n

/-- `br_read_bits` of swf_parse.c: read `n` bits MSB-first, bits past the end
of the buffer reading as 0. -/
def br_read_bits (br : BitReader) (n : Nat) : Nat × BitReader :=
  let r := br_read_bits_aux br.buf br.bitpos 0 n
  (r.1, ⟨br.buf, r.2⟩)

/-- `br_bits` of swf_tags.c is character-for-character the same loop as
`br_read_bits` of swf_parse.c. -/
def br_bits : BitReader → Nat → Nat × BitReader := br_read_bits

/-- `uint32_t` bitwise complement. -/
def not32 (x : Nat) : Nat := 4294967295 - x % 4294967296

/-- The C cast `(int32_t)u` of a `uint32_t` value. -/
def int32OfUInt32 (u : Nat) : Int :=
  if u % 4294967296 < 2147483648 then ((u % 4294967296 : Nat) : Int)
  else ((u % 4294967296 : Nat) : Int) - 4294967296

/-- `br_read_sbits` of swf_parse.c: read `n` bits, then
`if (n > 0 && (u & (1u << (n-1)))) u |= ~((1u << n) - 1);` and cast to
`int32_t`. -/
def br_read_sbits (br : BitReader) (n : Nat) : Int × BitReader :=
  let r := br_read_bits br n
  let u := r.1
  let u' :=
    if 0 < n ∧ (u &&& (1 <<< (n - 1))) ≠ 0 then u ||| not32 ((1 <<< n) - 1)
    else u
  (int32OfUInt32 u', r.2)

/-- `br_byte_align` of swf_parse.c / `br_align` of swf_tags.c. -/
def br_byte_align (br : BitReader) : BitReader :=
  let m := br.bitpos % 8
  if m ≠ 0 then ⟨br.buf, br.bitpos + (8 - m)⟩ else br

/-- Specification-side view of a single bit of the buffer: bit `i` (MSB-first
within each byte), 0 at or past the end of the buffer. -/
def bitAt (buf : List Nat) (i : Nat) : Nat :=
  (byteAt buf (i / 8) >>> (7 - i % 8)) &&& 1

/-- Specification-side value of the `n` bits starting at bit position `pos`,
decoded most-significant-bit-first. -/
def bitsValueSpec (buf : List Nat) (pos n : Nat) : Nat :=
  ∑ i ∈ Finset.range n, bitAt buf (pos + i) * 2 ^ (n - 1 - i)

/-- Specification-side sign extension of an `n`-bit value from bit `n-1`. -/
def signExtend (u n : Nat) : Int :=
  if 0 < n ∧ u.testBit (n - 1) then (u : Int) - 2 ^ n else (u : Int)

/-- `swf_tag_start_offset` of swf_tags.c: skip the FrameSize RECT (5-bit
`nbits`, four `nbits`-bit fields, byte alignment) plus FrameRate and
FrameCount, starting after the 8-byte container header.  The C `for` loop of
four discarded `br_bits` calls is unrolled. -/
def swf_tag_start_offset (swf : List Nat) : Except Int Nat :=
  if swf.length < 8 + 1 then .error (-1)
  else
    let r0 : BitReader := ⟨swf.drop 8, 0⟩
    let r1 := br_bits r0 5
    let nbits := r1.1
    let r2 := br_bits r1.2 nbits
    let r3 := br_bits r2.2 nbits
    let r4 := br_bits r3.2 nbits
    let r5 := br_bits r4.2 nbits
    let r6 := br_byte_align r5.2
    let rect_bytes := r6.bitpos / 8
    let off := 8 + rect_bytes + 4
    if off > swf.length then .error (-2) else .ok off

/-- `SwfTagSummary` of swf_tags.h. -/
structure SwfTagSummary where
  total_tags : Nat
  showframe_tags : Nat
  sprite_count : Nat
  sprite_tags : Nat
  sprite_showframe_tags : Nat
  has_file_attributes : Bool
  use_as3 : Bool
  use_network : Bool
  has_metadata : Bool
deriving DecidableEq, Repr

/-- The zeroed summary produced by `memset(out, 0, sizeof(*out))`. -/
def emptySummary : SwfTagSummary := ⟨0, 0, 0, 0, 0, false, false, false, false⟩

/-- `uint32_t` increment (`x++` on the summary counters). -/
def inc32 (x : Nat) : Nat := (x + 1) % 4294967296

/-- The RECORDHEADER decode at the top of `scan_stream`'s loop: the loop
guard `pos + 2 <= len`, the 16-bit little-endian header with a 10-bit type
code and 6-bit length, and for the 63 sentinel the guard `pos + 4 > len`
plus the 32-bit little-endian extended length.  All cursor additions are
`size_t` arithmetic, 32 bits wide on the target, hence the explicit
modulus.  `none` when a guard fails — the C then leaves the `while` loop.
Returns (code, size, payload position). -/
def readRecordHeader (data : List Nat) (pos : Nat) : Option (Nat × Nat × Nat) :=
  if (pos + 2) % 4294967296 ≤ data.length then
    let tcl := u16le data pos
    let code := tcl >>> 6
    let sz := tcl &&& 63
    let pos2 := (pos + 2) % 4294967296
    if sz = 63 then
      if (pos2 + 4) % 4294967296 > data.length then none
      else some (code, u32le data pos2, (pos2 + 4) % 4294967296)
    else
      some (code, sz, pos2)
  else none

/-- The FileAttributes (tag 69) update of `scan_stream`: store the presence
bit and the three flags of the 32-bit little-endian flag word. -/
def fileAttributesUpdate (out : SwfTagSummary) (flags : Nat) : SwfTagSummary :=
  { out with
    has_file_attributes := true
    use_network := (flags &&& (1 <<< 0)) ≠ 0
    use_as3 := (flags &&& (1 <<< 3)) ≠ 0
    has_metadata := (flags &&& (1 <<< 4)) ≠ 0 }

/-- `scan_stream` of swf_tags.c.  `data` is the current stream's buffer
(root timeline or sprite payload) and `pos` the C byte cursor into it;
`pos` and `len` are `size_t` and `size` is `uint32_t`, all 32 bits wide on
the 3DS target, so the overrun guard `pos + size > len` and the advance
`pos += size` wrap modulo 2^32.  The result pairs the updated summary with
the updated global `printed` count (`print_limit` and `printed` are C
`int`s; the `indent` argument and the `local_idx` counter only shape the
printed text and are omitted).  The fuel argument drives the `while` loop
and the `DefineSprite` recursion, one record per unit; when no length check
wraps, a record consumes at least two stream bytes and fuel = buffer length
(as the wrappers pass) cannot be exhausted, but a wrapped check lets the C
revisit earlier positions and loop forever, which appears here as fuel
running out. -/
def scan_stream :
    Nat → List Nat → Nat → SwfTagSummary → Int → Int → Bool → SwfTagSummary × Int
  | 0, _, _, out, _, printed, _ => (out, printed)
  | fuel + 1, data, pos, out, print_limit, printed, in_sprite =>
    match readRecordHeader data pos with
    | none => (out, printed)
    | some (code, sz, ppos) =>
      -- `if (pos + size > len) break;` — 32-bit addition, wraps
      if data.length < (ppos + sz) % 4294967296 then (out, printed)
      else
        let out1 :=
          if in_sprite then
            { out with
              sprite_tags := inc32 out.sprite_tags
              sprite_showframe_tags :=
                if code = 1 then inc32 out.sprite_showframe_tags
                else out.sprite_showframe_tags }
          else
            { out with
              total_tags := inc32 out.total_tags
              showframe_tags :=
                if code = 1 then inc32 out.showframe_tags
                else out.showframe_tags }
        let out2 :=
          if ¬in_sprite ∧ code = 69 ∧ 4 ≤ sz then
            fileAttributesUpdate out1 (u32le data ppos)
          else out1
        let printed1 := if printed < print_limit then printed + 1 else printed
        let r :=
          if ¬in_sprite ∧ code = 39 ∧ 4 ≤ sz then
            -- DefineSprite: SpriteID and FrameCount are read only for the
            -- informative print line (which does not bump `printed`); then
            -- the remaining payload `data + pos + 4` (pointer arithmetic in
            -- the C) of length size - 4 is scanned as a nested stream.
            scan_stream fuel ((data.drop (ppos + 4)).take (sz - 4)) 0
              { out2 with sprite_count := inc32 out2.sprite_count }
              print_limit printed1 true
          else (out2, printed1)
        if code = 0 then r
        else
          scan_stream fuel data ((ppos + sz) % 4294967296) r.1 print_limit r.2
            in_sprite

/-- The tag-scanning tail of `swf_scan_tags` (swf_tags.c), applied to an
already-loaded uncompressed buffer: compute the tag start offset (failure
becomes `-20`) and scan from there with a zeroed summary. -/
def swf_scan_tags_buf (swf : List Nat) (print_first_n : Int) :
    Except Int (SwfTagSummary × Int) :=
  match swf_tag_start_offset swf with
  | .error _ => .error (-20)
  | .ok off =>
    .ok (scan_stream swf.length (swf.drop off) 0 emptySummary print_first_n 0 false)

/-- Observable outcome of running zlib's `inflate` loop over a compressed
body: the stream inflates completely to `out` (`Z_STREAM_END`), `inflate`
reports an error after producing `out` (`ret != Z_OK && ret != Z_STREAM_END`),
or the input bytes run out (`fread` returns 0) after producing `out`.  zlib is
an external library; the repository code only branches on these outcomes. -/
inductive InflateOutcome where
  | finished (out : List Nat)
  | corrupt (out : List Nat)
  | truncated (out : List Nat)
deriving DecidableEq, Repr

/-- The canonical "FWS-like" 8-byte header `swf_load_uncompressed` writes at
the start of its buffer: fixed `FWS` marker, original version, original
declared length in little-endian. -/
def canonicalHeader (ver file_len : Nat) : List Nat :=
  [70, 87, 83, ver % 256, file_len % 256, file_len / 256 % 256,
   file_len / 65536 % 256, file_len / 16777216 % 256]

/-- `swf_load_uncompressed` of swf_tags.c on the file's bytes.  Error codes
as in the C: -2 header shorter than 8 bytes, -3 declared length outside
[8, 12 MiB] (checked before the `malloc` sized by it — hence before `zlib` is
consulted), -5 short read of an uncompressed body, -7 `inflate` error,
-8 stream did not reach `Z_STREAM_END` within the declared length (including
a truncated input, and the `file_len == 8` case where the loop never runs),
-9 unsupported signature (ZWS/LZMA and anything else).  `fopen` is given the
file, `malloc` and `inflateInit` are assumed to succeed (the -1, -4, -6 paths);
the bytes past the inflated output that the C leaves uninitialized in the
malloc'd buffer are modelled as zeros. -/
def swf_load_uncompressed (file : List Nat)
    (zlib : List Nat → InflateOutcome) : Except Int (List Nat) :=
  if file.length < 8 then .error (-2)
  else
    let sig := (byteAt file 0, byteAt file 1, byteAt file 2)
    let ver := byteAt file 3
    let file_len := u32le file 4
    if file_len < 8 ∨ file_len > 12 * 1024 * 1024 then .error (-3)
    else
      let hdr := canonicalHeader ver file_len
      if sig = (70, 87, 83) then -- "FWS"
        if file.length < file_len then .error (-5)
        else .ok (hdr ++ (file.drop 8).take (file_len - 8))
      else if sig = (67, 87, 83) then -- "CWS"
        if file_len = 8 then .error (-8) -- avail_out starts at 0: loop never runs
        else
          match zlib (file.drop 8) with
          | .finished out =>
            if out.length ≤ file_len - 8 then
              .ok (hdr ++ out ++ List.replicate (file_len - 8 - out.length) 0)
            else .error (-8) -- buffer filled before Z_STREAM_END
          | .corrupt out =>
            if out.length < file_len - 8 then .error (-7)
            else .error (-8) -- buffer filled before the error was reached
          | .truncated _ => .error (-8)
      else .error (-9) -- ZWS (LZMA) not supported yet

/-- `read_uncompressed_prefix` of swf_parse.c: produce up to `out_cap`
uncompressed bytes following the 8-byte header.  `body` is the file's
content after those 8 bytes.  Error codes as in the C: -1 empty uncompressed
body, -3 `inflate` error before the cap was reached, -4 zero decompressed
bytes (also when `out_cap = 0`, where the loop never runs), -5 unsupported
signature.  `inflateInit` is assumed to succeed (-2 path). -/
def read_uncompressed_prefix (body : List Nat) (sig : Nat × Nat × Nat)
    (out_cap : Nat) (zlib : List Nat → InflateOutcome) :
    Except Int (List Nat) :=
  if sig = (70, 87, 83) then
    let out := body.take out_cap
    if 0 < out.length then .ok out else .error (-1)
  else if sig = (67, 87, 83) then
    match zlib body with
    | .finished out =>
      let got := out.take out_cap
      if 0 < got.length then .ok got else .error (-4)
    | .corrupt out =>
      if out_cap = 0 then .error (-4) -- loop never runs, out_len stays 0
      else if out_cap ≤ out.length then .ok (out.take out_cap)
      else .error (-3)
    | .truncated out =>
      let got := out.take out_cap
      if 0 < got.length then .ok got else .error (-4)
  else .error (-5)

/-- `SwfHeader` of swf_parse.h.  The C stores `fps` as the `float`
`fr / 256.0f`; the raw 16-bit 8.8 fixed-point value `fr` is kept instead. -/
structure SwfHeader where
  signature : Nat × Nat × Nat
  version : Nat
  file_length : Nat
  width_px : Int
  height_px : Int
  frame_rate_raw : Nat
  frame_count : Nat
deriving DecidableEq, Repr

/-- The FrameSize/FrameRate/FrameCount parse at the end of `swf_read_header`
(swf_parse.c lines 116-139), on the uncompressed prefix `uc`: 5-bit `nbits`,
four signed fields xmin, xmax, ymin, ymax, byte alignment, then the two
16-bit little-endian fields; pixel sizes are the twip differences divided by
20 with C `int` division (truncation toward zero).  Returns -4 when the
prefix is too short for FrameRate/FrameCount. -/
def parse_header_fields (uc : List Nat) :
    Except Int (Int × Int × Nat × Nat) :=
  let r1 := br_read_bits ⟨uc, 0⟩ 5
  let nbits := r1.1
  let r2 := br_read_sbits r1.2 nbits
  let r3 := br_read_sbits r2.2 nbits
  let r4 := br_read_sbits r3.2 nbits
  let r5 := br_read_sbits r4.2 nbits
  let br := br_byte_align r5.2
  let byte_pos := br.bitpos / 8
  if byte_pos + 4 > uc.length then .error (-4)
  else
    let fr := u16le uc byte_pos
    let fc := u16le uc (byte_pos + 2)
    .ok (Int.tdiv (r3.1 - r2.1) 20, Int.tdiv (r5.1 - r4.1) 20, fr, fc)

/-- `swf_read_header` of swf_parse.c on the file's bytes: read the 8-byte
container header, obtain a 256-byte uncompressed prefix (any failure of the
helper collapses to -3), then parse FrameSize/FrameRate/FrameCount. -/
def swf_read_header (file : List Nat) (zlib : List Nat → InflateOutcome) :
    Except Int SwfHeader :=
  if file.length < 8 then .error (-2)
  else
    let sig := (byteAt file 0, byteAt file 1, byteAt file 2)
    let ver := byteAt file 3
    let flen := u32le file 4
    match read_uncompressed_prefix (file.drop 8) sig 256 zlib with
    | .error _ => .error (-3)
    | .ok uc =>
      match parse_header_fields uc with
      | .error e => .error e
      | .ok (w, h, fr, fc) => .ok ⟨sig, ver, flen, w, h, fr, fc⟩

/-- `swf_scan_tags` of swf_tags.c on the file's bytes: load the file as an
uncompressed buffer, locate the tag stream, scan it. -/
def swf_scan_tags (file : List Nat) (zlib : List Nat → InflateOutcome)
    (print_first_n : Int) : Except Int (SwfTagSummary × Int) :=
  match swf_load_uncompressed file zlib with
  | .error rc => .error rc
  | .ok swf =>
    match swf_tag_start_offset swf with
    | .error _ => .error (-20)
    | .ok off =>
      .ok (scan_stream swf.length (swf.drop off) 0 emptySummary print_first_n 0 false)

/-- Specification-side version of the FrameSize/FrameRate/FrameCount parse,
written from the specification's words: a 5-bit field width `n`, then four
signed `n`-bit fields in the order xmin, xmax, ymin, ymax (each
sign-extended from bit `n-1`), byte alignment, then the two 16-bit
little-endian fields; pixel sizes are the twip differences divided by 20
truncated toward zero. -/
def spec_header_fields (uc : List Nat) : Except Int (Int × Int × Nat × Nat) :=
  let n := bitsValueSpec uc 0 5
  let xmin := signExtend (bitsValueSpec uc 5 n) n
  let xmax := signExtend (bitsValueSpec uc (5 + n) n) n
  let ymin := signExtend (bitsValueSpec uc (5 + n + n) n) n
  let ymax := signExtend (bitsValueSpec uc (5 + n + n + n) n) n
  let bp := (5 + n + n + n + n + 7) / 8
  if bp + 4 > uc.length then .error (-4)
  else
    .ok (Int.tdiv (xmax - xmin) 20, Int.tdiv (ymax - ymin) 20,
      u16le uc bp, u16le uc (bp + 2))

/-- The stage-bounds record (xmin = 0, xmax = 11000, ymin = 0, ymax = 8000
twips) encoded with `nbits = 15`: 65 bits padded to 9 bytes. -/
def rectExample : List Nat := [120, 0, 5, 95, 0, 0, 15, 160, 0]

/-- The crafted buffer of the specification's test list: canonical header,
`rectExample`, frame rate 0x0C00, frame count 0x0001, then a DefineSprite
tag (id = 1, frames = 1, payload one ShowFrame tag and one End tag), a
root-level ShowFrame tag and a root-level End tag. -/
def craftedBuf : List Nat :=
  [70, 87, 83, 6, 35, 0, 0, 0] ++ rectExample ++ [0, 12, 1, 0] ++
    [200, 9, 1, 0, 1, 0, 64, 0, 0, 0] ++ [64, 0] ++ [0, 0]

/-- The failing record stream of claim C2: one extended-length record
(ShowFrame, code 1, length field 63) declaring extended length 0xFFFFFFFA,
in a 6-byte buffer. -/
def overflowStream : List Nat := [127, 0, 250, 255, 255, 255]

/-- A 19-byte FWS-style file whose single root record is `overflowStream`:
8-byte canonical header, 1-byte RECT (nbits = 0), frame rate and frame
count, then the record. -/
def overflowFile : List Nat :=
  [70, 87, 83, 6, 19, 0, 0, 0] ++ [0] ++ [0, 12, 1, 0] ++ overflowStream

/-! ## Correctness lemmas for the bit reader -/

lemma bitAt_le_one (buf : List Nat) (i : Nat) : bitAt buf i ≤ 1 :=
  Nat.and_le_right

lemma lor_mul_pow {a b n : Nat} (h : b < 2 ^ n) :
    (a * 2 ^ n) ||| b = a * 2 ^ n + b := by
  apply Nat.eq_of_testBit_eq
  intro i
  rw [Nat.testBit_or, Nat.mul_comm a, Nat.testBit_mul_pow_two_add a h,
    show 2 ^ n * a = a <<< n by rw [Nat.shiftLeft_eq, Nat.mul_comm],
    Nat.testBit_shiftLeft]
  by_cases hi : i < n
  · simp [hi, Nat.not_le_of_lt hi]
  · have hb : b.testBit i = false :=
      Nat.testBit_lt_two_pow
        (lt_of_lt_of_le h (Nat.pow_le_pow_right (by norm_num) (Nat.le_of_not_lt hi)))
    simp [hi, Nat.le_of_not_lt hi, hb]

lemma bitsValueSpec_succ (buf : List Nat) (pos n : Nat) :
    bitsValueSpec buf pos (n + 1) =
      bitAt buf pos * 2 ^ n + bitsValueSpec buf (pos + 1) n := by
  unfold bitsValueSpec
  simp only [Nat.add_sub_cancel]
  rw [Finset.sum_range_succ']
  rw [Nat.add_comm]
  congr 1
  apply Finset.sum_congr rfl
  intro i _
  rw [show pos + (i + 1) = pos + 1 + i by omega,
    show n - (i + 1) = n - 1 - i by omega]

lemma bitsValueSpec_lt (buf : List Nat) : ∀ (n pos : Nat),
    bitsValueSpec buf pos n < 2 ^ n
  | 0, pos => by simp [bitsValueSpec]
  | n + 1, pos => by
    rw [bitsValueSpec_succ]
    have h1 := bitAt_le_one buf pos
    have h2 := bitsValueSpec_lt buf n (pos + 1)
    have h3 : 2 ^ (n + 1) = 2 * 2 ^ n := by ring
    nlinarith

lemma br_read_bits_aux_spec (buf : List Nat) : ∀ (n pos v : Nat), n ≤ 32 →
    v < 2 ^ (32 - n) →
    br_read_bits_aux buf pos v n = (v * 2 ^ n + bitsValueSpec buf pos n, pos + n)
  | 0, pos, v, _, _ => by simp [br_read_bits_aux, bitsValueSpec]
  | n + 1, pos, v, hn, hv => by
    rw [br_read_bits_aux]
    have hbit : ((if pos / 8 < buf.length then byteAt buf (pos / 8) else 0) >>>
        (7 - pos % 8)) &&& 1 = bitAt buf pos := by
      by_cases h : pos / 8 < buf.length
      · simp [h, bitAt]
      · have hd : buf.getD (pos / 8) 0 = 0 :=
          List.getD_eq_default _ _ (Nat.le_of_not_lt h)
        simp only [bitAt, byteAt, hd, if_neg h]
    have hble := bitAt_le_one buf pos
    have hpow : 2 ^ (32 - (n + 1)) * 2 ≤ 2 ^ (32 - n) := by
      rw [show 32 - n = (32 - (n + 1)) + 1 by omega, pow_succ]
    have hv2 : v * 2 < 2 ^ (32 - n) := by omega
    have hmod : (v <<< 1) % 4294967296 = v * 2 := by
      rw [Nat.shiftLeft_eq, pow_one]
      exact Nat.mod_eq_of_lt (lt_of_lt_of_le hv2 (by
        calc (2 : Nat) ^ (32 - n) ≤ 2 ^ 32 :=
              Nat.pow_le_pow_right (by norm_num) (by omega)
          _ = 4294967296 := by norm_num))
    rw [hbit, hmod]
    have hor : (v * 2) ||| bitAt buf pos = v * 2 + bitAt buf pos := by
      have := lor_mul_pow (a := v) (n := 1) (b := bitAt buf pos) (by omega)
      simpa using this
    rw [hor]
    rw [br_read_bits_aux_spec buf n (pos + 1) (v * 2 + bitAt buf pos)
      (by omega) (by omega)]
    rw [bitsValueSpec_succ]
    simp only [Prod.mk.injEq]
    exact ⟨by ring, by omega⟩

lemma br_read_bits_spec (buf : List Nat) (pos n : Nat) (hn : n ≤ 32) :
    br_read_bits ⟨buf, pos⟩ n = (bitsValueSpec buf pos n, ⟨buf, pos + n⟩) := by
  unfold br_read_bits
  rw [br_read_bits_aux_spec buf n pos 0 hn (by positivity)]
  simp

lemma shiftLeft_one_eq (n : Nat) : (1 : Nat) <<< n = 2 ^ n := by
  rw [Nat.shiftLeft_eq, one_mul]

lemma br_read_sbits_spec (buf : List Nat) (pos n : Nat) (hn : n ≤ 31) :
    br_read_sbits ⟨buf, pos⟩ n =
      (signExtend (bitsValueSpec buf pos n) n, ⟨buf, pos + n⟩) := by
  unfold br_read_sbits
  rw [br_read_bits_spec buf pos n (by omega)]
  have hult : bitsValueSpec buf pos n < 2 ^ n := bitsValueSpec_lt buf n pos
  set u := bitsValueSpec buf pos n with hu
  have htb : (u &&& (1 <<< (n - 1))) ≠ 0 ↔ u.testBit (n - 1) = true := by
    rw [shiftLeft_one_eq, Nat.and_two_pow]
    rcases Bool.eq_false_or_eq_true (u.testBit (n - 1)) with h | h <;>
      simp [h]
  have hpow31 : (2 : Nat) ^ n ≤ 2 ^ 31 := Nat.pow_le_pow_right (by norm_num) hn
  by_cases hc : 0 < n ∧ (u &&& (1 <<< (n - 1))) ≠ 0
  · obtain ⟨hn0, hbit⟩ := hc
    have htb' : u.testBit (n - 1) = true := htb.mp hbit
    have hnot : not32 ((1 <<< n) - 1) = 4294967296 - 2 ^ n := by
      rw [shiftLeft_one_eq]
      unfold not32
      rw [Nat.mod_eq_of_lt (by omega : (2 : Nat) ^ n - 1 < 4294967296)]
      omega
    have hpowadd : (2 : Nat) ^ (32 - n) * 2 ^ n = 4294967296 := by
      rw [← pow_add, show 32 - n + n = 32 by omega]
      norm_num
    have hor : u ||| (4294967296 - 2 ^ n) = 4294967296 - 2 ^ n + u := by
      have hd : 4294967296 - 2 ^ n = (2 ^ (32 - n) - 1) * 2 ^ n := by
        rw [Nat.sub_mul, one_mul, hpowadd]
      rw [hd, Nat.lor_comm, lor_mul_pow hult]
    simp only [if_pos (And.intro hn0 hbit), hnot, hor]
    unfold int32OfUInt32 signExtend
    rw [if_pos (And.intro hn0 htb')]
    have hm : (4294967296 - 2 ^ n + u) % 4294967296 = 4294967296 - 2 ^ n + u :=
      Nat.mod_eq_of_lt (by omega)
    rw [hm, if_neg (by omega)]
    simp only [Prod.mk.injEq, and_true]
    have : ((4294967296 - 2 ^ n + u : Nat) : Int) =
        4294967296 - ((2 ^ n : Nat) : Int) + (u : Int) := by
      push_cast [Nat.cast_sub (by omega : (2 : Nat) ^ n ≤ 4294967296)]
      ring
    rw [this]
    push_cast
    ring
  · simp only [if_neg hc]
    unfold int32OfUInt32 signExtend
    have hm : u % 4294967296 = u := Nat.mod_eq_of_lt (by omega)
    rw [hm, if_pos (by omega : u < 2147483648),
      if_neg (by rw [htb] at hc; tauto)]

lemma br_byte_align_bitpos (br : BitReader) :
    (br_byte_align br).bitpos / 8 = (br.bitpos + 7) / 8 ∧
      (br_byte_align br).buf = br.buf := by
  unfold br_byte_align
  by_cases h : br.bitpos % 8 ≠ 0
  · simp only [if_pos h]
    exact ⟨by omega, by trivial⟩
  · simp only [if_neg h]
    exact ⟨by omega, by trivial⟩

lemma parse_header_fields_eq (uc : List Nat) :
    parse_header_fields uc = spec_header_fields uc := by
  have hn31 : bitsValueSpec uc 0 5 ≤ 31 := by
    have := bitsValueSpec_lt uc 5 0; omega
  have e1 := br_read_bits_spec uc 0 5 (by norm_num)
  have e2 := br_read_sbits_spec uc 5 (bitsValueSpec uc 0 5) hn31
  have e3 := br_read_sbits_spec uc (5 + bitsValueSpec uc 0 5)
    (bitsValueSpec uc 0 5) hn31
  have e4 := br_read_sbits_spec uc
    (5 + bitsValueSpec uc 0 5 + bitsValueSpec uc 0 5)
    (bitsValueSpec uc 0 5) hn31
  have e5 := br_read_sbits_spec uc
    (5 + bitsValueSpec uc 0 5 + bitsValueSpec uc 0 5 + bitsValueSpec uc 0 5)
    (bitsValueSpec uc 0 5) hn31
  have ha := br_byte_align_bitpos
    ⟨uc, 5 + bitsValueSpec uc 0 5 + bitsValueSpec uc 0 5 +
      bitsValueSpec uc 0 5 + bitsValueSpec uc 0 5⟩
  simp only [parse_header_fields, spec_header_fields, e1, Nat.zero_add,
    e2, e3, e4, e5, ha.1]

/-! ## Lemmas about the tag-record scanner -/

lemma readRecordHeader_short (data : List Nat) (pos : Nat)
    (h2 : pos + 2 ≤ data.length) (hw : pos + 2 < 4294967296)
    (h63 : u16le data pos &&& 63 ≠ 63) :
    readRecordHeader data pos =
      some (u16le data pos >>> 6, u16le data pos &&& 63, pos + 2) := by
  have hm : (pos + 2) % 4294967296 = pos + 2 := Nat.mod_eq_of_lt hw
  simp [readRecordHeader, hm, h2, h63]

lemma readRecordHeader_ext (data : List Nat) (pos : Nat)
    (h6 : pos + 6 ≤ data.length) (hw : pos + 6 < 4294967296)
    (h63 : u16le data pos &&& 63 = 63) :
    readRecordHeader data pos =
      some (u16le data pos >>> 6, u32le data (pos + 2), pos + 6) := by
  have hm2 : (pos + 2) % 4294967296 = pos + 2 := by omega
  have hm6 : (pos + 2 + 4) % 4294967296 = pos + 6 := by omega
  have h2 : pos + 2 ≤ data.length := by omega
  have hg : ¬ (pos + 6 > data.length) := by omega
  simp [readRecordHeader, hm2, hm6, h2, h63, hg]

lemma and_shift_ne_zero (flags k : Nat) :
    decide ((flags &&& (1 <<< k)) ≠ 0) = flags.testBit k := by
  rw [shiftLeft_one_eq, Nat.and_two_pow]
  cases h : flags.testBit k <;> simp [h]

/-! ## The claims -/

/-- Claim C1: whenever an input file declares a total length (the 4-byte
little-endian field at offset 4) below 8 or above 12 MiB, the full-buffer
load path `swf_load_uncompressed` rejects it with its size-out-of-bounds
error code -3.  The result is independent of the decompressor (`zlib` is
universally quantified), matching the C code where the check precedes the
`malloc` sized by the declared length and the whole body processing. -/
theorem claim_C1_size_window (file : List Nat) (zlib : List Nat → InflateOutcome)
    (hlen : 8 ≤ file.length)
    (hbad : u32le file 4 < 8 ∨ u32le file 4 > 12 * 1024 * 1024) :
    swf_load_uncompressed file zlib = .error (-3) := by
  simp only [swf_load_uncompressed]
  rw [if_neg (by omega : ¬ file.length < 8), if_pos hbad]

theorem claim_C1_size_window_witness :
    8 ≤ ([70, 87, 83, 6, 0, 0, 0, 0] : List Nat).length ∧
    swf_load_uncompressed [70, 87, 83, 6, 0, 0, 0, 0]
      (fun _ => InflateOutcome.finished []) = .error (-3) :=
  ⟨by decide, claim_C1_size_window [70, 87, 83, 6, 0, 0, 0, 0]
    (fun _ => InflateOutcome.finished []) (by decide) (Or.inl (by decide))⟩

set_option maxRecDepth 8000 in
/-- Claim C2, exhibiting the code bug at the failing input: the record at
position 0 of `overflowStream` claims extended length 0xFFFFFFFA with only
6 stream bytes available, yet on the 32-bit target the overrun guard
computes (6 + 0xFFFFFFFA) mod 2^32 = 0 <= 6 and passes, so one scan step
*counts* the oversized record and moves the cursor back to position 0 —
the C loop therefore never terminates, re-counting the record at every
revisit (the fuel-3 evaluation counts it three times, and the 19-byte file
`overflowFile`, whose fuel is its length 19, counts it nineteen times) —
instead of ending the stream's scan with the record uncounted and no
out-of-bounds access as the claim requires. -/
theorem claim_C2_truncated_record :
    (∀ (fuel : Nat) (out : SwfTagSummary) (lim printed : Int),
        scan_stream (fuel + 1) overflowStream 0 out lim printed false =
          scan_stream fuel overflowStream 0
            { out with total_tags := inc32 out.total_tags,
                       showframe_tags := inc32 out.showframe_tags }
            lim (if printed < lim then printed + 1 else printed) false) ∧
    scan_stream 3 overflowStream 0 emptySummary 0 0 false =
      ({ emptySummary with total_tags := 3, showframe_tags := 3 }, 0) ∧
    scan_stream 1 overflowStream 0 emptySummary 0 0 false ≠ (emptySummary, 0) ∧
    swf_scan_tags_buf overflowFile 0 =
      .ok ({ emptySummary with total_tags := 19, showframe_tags := 19 }, 0) := by
  refine ⟨?_, by decide, by decide, by rfl⟩
  intro fuel out lim printed
  rw [scan_stream,
    show readRecordHeader overflowStream 0 = some (1, 4294967290, 6) from by decide]
  have hm : ((6 : Nat) + 4294967290) % 4294967296 = 0 := by norm_num
  have hlen : overflowStream.length = 6 := by decide
  simp [hm, hlen]

/-- Claim C3: the scanner decodes the 16-bit little-endian record header
into a type code (upper 10 bits) and a length (lower 6 bits); a length
field of 63 makes it read a 32-bit little-endian extended length from the
following 4 bytes; and after a complete extended-length record the scan
continues exactly `pos + 6 + extended length`, i.e. the payload is skipped
byte-exactly before the next header is read.  The no-wrap side conditions
(`... < 4294967296`) confine the statements to where the 32-bit cursor
arithmetic cannot wrap — they hold for every program-reachable buffer,
which is at most 12 MiB. -/
theorem claim_C3_record_header :
    (∀ (data : List Nat) (pos : Nat), pos + 2 ≤ data.length →
        pos + 2 < 4294967296 → u16le data pos &&& 63 ≠ 63 →
        readRecordHeader data pos =
          some (u16le data pos >>> 6, u16le data pos &&& 63, pos + 2)) ∧
    (∀ (data : List Nat) (pos : Nat), pos + 6 ≤ data.length →
        pos + 6 < 4294967296 → u16le data pos &&& 63 = 63 →
        readRecordHeader data pos =
          some (u16le data pos >>> 6, u32le data (pos + 2), pos + 6)) ∧
    (∀ (fuel : Nat) (data : List Nat) (pos : Nat) (out : SwfTagSummary)
        (lim printed : Int) (isp : Bool),
        pos + 6 ≤ data.length → u16le data pos &&& 63 = 63 →
        pos + 6 + u32le data (pos + 2) ≤ data.length →
        pos + 6 + u32le data (pos + 2) < 4294967296 →
        u16le data pos >>> 6 ≠ 0 →
        ∃ out' printed',
          scan_stream (fuel + 1) data pos out lim printed isp =
            scan_stream fuel data (pos + 6 + u32le data (pos + 2)) out' lim
              printed' isp) := by
  refine ⟨readRecordHeader_short, readRecordHeader_ext, ?_⟩
  intro fuel data pos out lim printed isp h6 h63 hb hw hc0
  rw [scan_stream, readRecordHeader_ext data pos h6 (by omega) h63]
  have hm : (pos + 6 + u32le data (pos + 2)) % 4294967296 =
      pos + 6 + u32le data (pos + 2) := by omega
  have hno : ¬ data.length < pos + 6 + u32le data (pos + 2) := by omega
  simp [hm, hno, hc0]
  exact ⟨_, _, rfl⟩

set_option maxRecDepth 8000 in
theorem claim_C3_record_header_witness :
    readRecordHeader [64, 0] 0 = some (1, 0, 2) ∧
    readRecordHeader ([191, 0, 0, 1, 0, 0] ++ List.replicate 256 0) 0 =
      some (2, 256, 6) ∧
    (∃ out' printed',
      scan_stream 4 ([191, 0, 0, 1, 0, 0] ++ List.replicate 256 0) 0
          emptySummary 0 0 false =
        scan_stream 3 ([191, 0, 0, 1, 0, 0] ++ List.replicate 256 0) 262
          out' 0 printed' false) :=
  ⟨claim_C3_record_header.1 [64, 0] 0 (by decide) (by decide) (by decide),
   claim_C3_record_header.2.1 ([191, 0, 0, 1, 0, 0] ++ List.replicate 256 0) 0
     (by decide) (by decide) (by decide),
   claim_C3_record_header.2.2 3 ([191, 0, 0, 1, 0, 0] ++ List.replicate 256 0) 0
     emptySummary 0 0 false (by decide) (by decide) (by decide) (by decide)
     (by decide)⟩

/-- Claim C4: for every buffer, cursor position and `n ≤ 32`, the bit
reader returns exactly the value of the next `n` bits decoded
most-significant-bit-first (`bitsValueSpec`, in which every bit at or past
the end of the buffer contributes 0), advances the cursor by `n` bits, and
is total; in the embedding every byte access is guarded by the same bounds
check the C performs, substituting 0 past the end. -/
theorem claim_C4_bit_reader (buf : List Nat) (pos n : Nat) (hn : n ≤ 32) :
    br_read_bits ⟨buf, pos⟩ n = (bitsValueSpec buf pos n, ⟨buf, pos + n⟩) :=
  br_read_bits_spec buf pos n hn

theorem claim_C4_bit_reader_witness :
    7 ≤ 32 ∧
    br_read_bits ⟨[165, 90], 3⟩ 7 =
      (bitsValueSpec [165, 90] 3 7, ⟨[165, 90], 3 + 7⟩) ∧
    bitsValueSpec [165, 90] 3 7 = 21 :=
  ⟨by decide, claim_C4_bit_reader [165, 90] 3 7 (by decide), by decide⟩

/-- Claim C5: the header reader's stage-bounds parse equals the
specification-side decoder (5-bit width, then four sign-extended fields in
the order xmin, xmax, ymin, ymax, pixel sizes as twip differences divided by
20 truncated toward zero), and on the canonical example rectangle
(0, 11000, 0, 8000 twips) it yields width 550 px, height 400 px (with
frame-rate raw value 0x0C00 and frame count 1 from the following bytes). -/
theorem claim_C5_stage_bounds :
    (∀ uc : List Nat, parse_header_fields uc = spec_header_fields uc) ∧
    parse_header_fields (rectExample ++ [0, 12, 1, 0]) =
      .ok (550, 400, 3072, 1) :=
  ⟨parse_header_fields_eq, by rfl⟩

/-- Claim C6 (amended): a ZWS-signature file is rejected by the full-buffer
load path with its own error code -9, distinct from every other error code
of that path (in particular from the decompression-failure codes -7 and -8),
provided its declared length passes the size window that is checked first;
but the header-read entry point collapses every prefix failure to the single
code -3, so there a ZWS file produces the same error value as a
decompression failure (see the counterexample). -/
theorem claim_C6_unsupported_variant :
    (∀ (file : List Nat) (zlib : List Nat → InflateOutcome) (n : Int),
        8 ≤ file.length →
        byteAt file 0 = 90 → byteAt file 1 = 87 → byteAt file 2 = 83 →
        (¬(u32le file 4 < 8 ∨ u32le file 4 > 12 * 1024 * 1024) →
            swf_scan_tags file zlib n = .error (-9)) ∧
        swf_read_header file zlib = .error (-3)) ∧
    ((-9 : Int) ≠ -1 ∧ (-9 : Int) ≠ -2 ∧ (-9 : Int) ≠ -3 ∧ (-9 : Int) ≠ -5 ∧
      (-9 : Int) ≠ -7 ∧ (-9 : Int) ≠ -8 ∧ (-9 : Int) ≠ -20) := by
  constructor
  · intro file zlib n hlen h0 h1 h2
    have hl : ¬ file.length < 8 := by omega
    constructor
    · intro hsz
      simp [swf_scan_tags, swf_load_uncompressed, hl, hsz, h0, h1, h2]
    · simp [swf_read_header, read_uncompressed_prefix, hl, h0, h1, h2]
  · refine ⟨?_, ?_, ?_, ?_, ?_, ?_, ?_⟩ <;> decide

theorem claim_C6_unsupported_variant_witness :
    swf_scan_tags [90, 87, 83, 6, 35, 0, 0, 0]
        (fun _ => InflateOutcome.finished []) 0 = .error (-9) ∧
    swf_read_header [90, 87, 83, 6, 35, 0, 0, 0]
        (fun _ => InflateOutcome.finished []) = .error (-3) :=
  ⟨(claim_C6_unsupported_variant.1 [90, 87, 83, 6, 35, 0, 0, 0]
      (fun _ => InflateOutcome.finished []) 0 (by decide) (by decide) (by decide)
      (by decide)).1 (by decide),
   (claim_C6_unsupported_variant.1 [90, 87, 83, 6, 35, 0, 0, 0]
      (fun _ => InflateOutcome.finished []) 0 (by decide) (by decide) (by decide)
      (by decide)).2⟩

/-- Claim C6, counterexample to the claim as stated: at the header-read
entry point a ZWS file and a corrupt CWS file produce the *same* error value
-3, so the unsupported-variant error is not distinct from the
decompression-failure error at every parser entry point. -/
theorem claim_C6_counterexample :
    swf_read_header [90, 87, 83, 6, 8, 0, 0, 0]
        (fun _ => InflateOutcome.finished []) = .error (-3) ∧
    swf_read_header [67, 87, 83, 6, 9, 0, 0, 0, 0]
        (fun _ => InflateOutcome.corrupt []) = .error (-3) :=
  ⟨rfl, rfl⟩

/-- Claim C7 (amended): in the full-buffer load path a corrupt zlib body
fails with -7 or -8 and a prematurely-terminated body fails with -8, never
success; in the bounded-prefix path a corrupt body fails with -3 only when
the error is reached before the byte cap is filled, while a
prematurely-terminated body that produced at least one byte is returned as
a *success* with the partial prefix (the claim's assertion that it fails in
both paths is refuted by `claim_C7_counterexample`). -/
theorem claim_C7_decompression_failure :
    (∀ (file res : List Nat) (zlib : List Nat → InflateOutcome),
        8 ≤ file.length →
        byteAt file 0 = 67 → byteAt file 1 = 87 → byteAt file 2 = 83 →
        ¬(u32le file 4 < 8 ∨ u32le file 4 > 12 * 1024 * 1024) →
        zlib (file.drop 8) = InflateOutcome.corrupt res →
        (swf_load_uncompressed file zlib = .error (-7) ∨
          swf_load_uncompressed file zlib = .error (-8))) ∧
    (∀ (file res : List Nat) (zlib : List Nat → InflateOutcome),
        8 ≤ file.length →
        byteAt file 0 = 67 → byteAt file 1 = 87 → byteAt file 2 = 83 →
        ¬(u32le file 4 < 8 ∨ u32le file 4 > 12 * 1024 * 1024) →
        zlib (file.drop 8) = InflateOutcome.truncated res →
        swf_load_uncompressed file zlib = .error (-8)) ∧
    (∀ (body res : List Nat) (cap : Nat) (zlib : List Nat → InflateOutcome),
        zlib body = InflateOutcome.corrupt res → res.length < cap →
        read_uncompressed_prefix body (67, 87, 83) cap zlib = .error (-3)) ∧
    (∀ (body res : List Nat) (cap : Nat) (zlib : List Nat → InflateOutcome),
        zlib body = InflateOutcome.truncated res → res ≠ [] → 0 < cap →
        read_uncompressed_prefix body (67, 87, 83) cap zlib =
          .ok (res.take cap)) := by
  refine ⟨?_, ?_, ?_, ?_⟩
  · intro file res zlib hlen h0 h1 h2 hsz hz
    have hl : ¬ file.length < 8 := by omega
    by_cases h8 : u32le file 4 = 8
    · right
      simp [swf_load_uncompressed, hl, hsz, h0, h1, h2, h8, hz]
    · by_cases hlt : res.length < u32le file 4 - 8
      · left
        simp [swf_load_uncompressed, hl, hsz, h0, h1, h2, h8, hz, hlt]
      · right
        simp [swf_load_uncompressed, hl, hsz, h0, h1, h2, h8, hz, hlt]
  · intro file res zlib hlen h0 h1 h2 hsz hz
    have hl : ¬ file.length < 8 := by omega
    by_cases h8 : u32le file 4 = 8 <;>
      simp [swf_load_uncompressed, hl, hsz, h0, h1, h2, h8, hz]
  · intro body res cap zlib hz hlt
    have hc0 : ¬ cap = 0 := by omega
    have hc1 : ¬ cap ≤ res.length := by omega
    simp [ read_uncompressed_prefix, hz, hc0, hc1]
  · intro body res cap zlib hz hne hcap
    have hpos : 0 < (res.take cap).length := by
      rw [List.length_take]
      have := List.length_pos.mpr hne
      omega
    simp [ read_uncompressed_prefix, hz, hpos]
    exact ⟨hcap, hne⟩

theorem claim_C7_decompression_failure_witness :
    (swf_load_uncompressed [67, 87, 83, 6, 16, 0, 0, 0, 1]
        (fun _ => InflateOutcome.corrupt []) = .error (-7) ∨
      swf_load_uncompressed [67, 87, 83, 6, 16, 0, 0, 0, 1]
        (fun _ => InflateOutcome.corrupt []) = .error (-8)) ∧
    swf_load_uncompressed [67, 87, 83, 6, 16, 0, 0, 0, 1]
      (fun _ => InflateOutcome.truncated [5]) = .error (-8) ∧
    read_uncompressed_prefix [1] (67, 87, 83) 256
      (fun _ => InflateOutcome.corrupt []) = .error (-3) ∧
    read_uncompressed_prefix [1] (67, 87, 83) 256
      (fun _ => InflateOutcome.truncated [5]) = .ok ([5].take 256) :=
  ⟨claim_C7_decompression_failure.1 [67, 87, 83, 6, 16, 0, 0, 0, 1] []
     (fun _ => InflateOutcome.corrupt []) (by decide) (by decide) (by decide)
     (by decide) (by decide) (by rfl),
   claim_C7_decompression_failure.2.1 [67, 87, 83, 6, 16, 0, 0, 0, 1] [5]
     (fun _ => InflateOutcome.truncated [5]) (by decide) (by decide) (by decide)
     (by decide) (by decide) (by rfl),
   claim_C7_decompression_failure.2.2.1 [1] [] 256
     (fun _ => InflateOutcome.corrupt []) (by rfl) (by decide),
   claim_C7_decompression_failure.2.2.2 [1] [5] 256
     (fun _ => InflateOutcome.truncated [5]) (by rfl) (by decide) (by decide)⟩

/-- Claim C7, counterexample to the claim as stated: a compressed body that
terminates prematurely after yielding one byte makes the bounded-prefix
decompression step return a success value, not a decompression error. -/
theorem claim_C7_counterexample :
    read_uncompressed_prefix [0] (67, 87, 83) 256
      (fun _ => InflateOutcome.truncated [5]) = .ok [5] := rfl

/-- Claim C8: scanning the crafted buffer (canonical header, the
(0, 11000, 0, 8000)-twip RECT, frame rate 0x0C00, frame count 1, a
DefineSprite tag with one ShowFrame and one End tag inside, a root ShowFrame
tag and a root End tag) produces exactly total 3 root tags, 1 root frame
marker, 1 sprite, 2 sprite tags and 1 sprite frame marker. -/
theorem claim_C8_crafted_buffer :
    swf_scan_tags_buf craftedBuf 0 =
      .ok (⟨3, 1, 1, 2, 1, false, false, false, false⟩, 0) := by rfl

/-- Claim C9: the FileAttributes update records presence and decodes bit 0
as network-access, bit 3 as ActionScript-3 and bit 4 as has-metadata of the
32-bit little-endian flag word; and a root-level record of type code 69
with payload length at least 4 makes one scan step apply exactly that
update with the first 4 payload bytes before continuing behind the record
(the no-wrap side condition holds for every program-reachable buffer). -/
theorem claim_C9_file_attributes :
    (∀ (out : SwfTagSummary) (flags : Nat),
        (fileAttributesUpdate out flags).has_file_attributes = true ∧
        (fileAttributesUpdate out flags).use_network = flags.testBit 0 ∧
        (fileAttributesUpdate out flags).use_as3 = flags.testBit 3 ∧
        (fileAttributesUpdate out flags).has_metadata = flags.testBit 4) ∧
    (∀ (fuel : Nat) (data : List Nat) (pos : Nat) (out : SwfTagSummary)
        (lim printed : Int) (sz ppos : Nat),
        readRecordHeader data pos = some (69, sz, ppos) → 4 ≤ sz →
        ppos + sz ≤ data.length → ppos + sz < 4294967296 →
        scan_stream (fuel + 1) data pos out lim printed false =
          scan_stream fuel data (ppos + sz)
            (fileAttributesUpdate { out with total_tags := inc32 out.total_tags }
              (u32le data ppos))
            lim (if printed < lim then printed + 1 else printed) false) := by
  constructor
  · intro out flags
    refine ⟨rfl, ?_, ?_, ?_⟩ <;>
      simp only [fileAttributesUpdate] <;>
      exact and_shift_ne_zero flags _
  · intro fuel data pos out lim printed sz ppos h h4 hb hw
    rw [scan_stream, h]
    have hm : (ppos + sz) % 4294967296 = ppos + sz := Nat.mod_eq_of_lt hw
    have hno : ¬ data.length < ppos + sz := by omega
    simp [hm, hno, h4]

theorem claim_C9_file_attributes_witness :
    scan_stream 2 [68, 17, 9, 0, 0, 0] 0 emptySummary 0 0 false =
      scan_stream 1 [68, 17, 9, 0, 0, 0] (2 + 4)
        (fileAttributesUpdate
          { emptySummary with total_tags := inc32 emptySummary.total_tags }
          (u32le [68, 17, 9, 0, 0, 0] 2))
        0 (if (0 : Int) < 0 then 0 + 1 else 0) false ∧
    (fileAttributesUpdate emptySummary 9).use_network = true ∧
    (fileAttributesUpdate emptySummary 9).use_as3 = true ∧
    (fileAttributesUpdate emptySummary 9).has_metadata = false :=
  ⟨claim_C9_file_attributes.2 1 [68, 17, 9, 0, 0, 0] 0 emptySummary 0 0 4 2
     (by decide) (by decide) (by decide) (by decide),
   by decide, by decide, by decide⟩

/-- Claim C10: a DefineSprite record (type code 39) met inside a sprite
stream only increments the aggregate sprite tag counter — no sprite-count
increment and no recursion into its payload; at root level with payload
shorter than 4 bytes it is likewise only counted; recursive descent into
the payload happens exactly at root level with payload length at least 4,
as the third equation exhibits (the no-wrap side conditions hold for every
program-reachable buffer). -/
theorem claim_C10_sprite_nesting :
    (∀ (fuel : Nat) (data : List Nat) (pos : Nat) (out : SwfTagSummary)
        (lim printed : Int) (sz ppos : Nat),
        readRecordHeader data pos = some (39, sz, ppos) →
        ppos + sz ≤ data.length → ppos + sz < 4294967296 →
        scan_stream (fuel + 1) data pos out lim printed true =
          scan_stream fuel data (ppos + sz)
            { out with sprite_tags := inc32 out.sprite_tags }
            lim (if printed < lim then printed + 1 else printed) true) ∧
    (∀ (fuel : Nat) (data : List Nat) (pos : Nat) (out : SwfTagSummary)
        (lim printed : Int) (sz ppos : Nat),
        readRecordHeader data pos = some (39, sz, ppos) →
        ppos + sz ≤ data.length → ppos + sz < 4294967296 → sz < 4 →
        scan_stream (fuel + 1) data pos out lim printed false =
          scan_stream fuel data (ppos + sz)
            { out with total_tags := inc32 out.total_tags }
            lim (if printed < lim then printed + 1 else printed) false) ∧
    (∀ (fuel : Nat) (data : List Nat) (pos : Nat) (out : SwfTagSummary)
        (lim printed : Int) (sz ppos : Nat),
        readRecordHeader data pos = some (39, sz, ppos) →
        ppos + sz ≤ data.length → ppos + sz < 4294967296 → 4 ≤ sz →
        scan_stream (fuel + 1) data pos out lim printed false =
          scan_stream fuel data (ppos + sz)
            (scan_stream fuel ((data.drop (ppos + 4)).take (sz - 4)) 0
              { out with total_tags := inc32 out.total_tags,
                         sprite_count := inc32 out.sprite_count }
              lim (if printed < lim then printed + 1 else printed) true).1
            lim
            (scan_stream fuel ((data.drop (ppos + 4)).take (sz - 4)) 0
              { out with total_tags := inc32 out.total_tags,
                         sprite_count := inc32 out.sprite_count }
              lim (if printed < lim then printed + 1 else printed) true).2
            false) := by
  refine ⟨?_, ?_, ?_⟩
  · intro fuel data pos out lim printed sz ppos h hb hw
    rw [scan_stream, h]
    have hm : (ppos + sz) % 4294967296 = ppos + sz := Nat.mod_eq_of_lt hw
    have hno : ¬ data.length < ppos + sz := by omega
    simp [hm, hno]
  · intro fuel data pos out lim printed sz ppos h hb hw h4
    rw [scan_stream, h]
    have hm : (ppos + sz) % 4294967296 = ppos + sz := Nat.mod_eq_of_lt hw
    have hno : ¬ data.length < ppos + sz := by omega
    have h4' : ¬ 4 ≤ sz := by omega
    simp [hm, hno, h4']
  · intro fuel data pos out lim printed sz ppos h hb hw h4
    rw [scan_stream, h]
    have hm : (ppos + sz) % 4294967296 = ppos + sz := Nat.mod_eq_of_lt hw
    have hno : ¬ data.length < ppos + sz := by omega
    simp [hm, hno, h4]

theorem claim_C10_sprite_nesting_witness :
    scan_stream 2 [200, 9, 0, 0, 0, 0, 0, 0, 0, 0] 0 emptySummary 0 0 true =
      scan_stream 1 [200, 9, 0, 0, 0, 0, 0, 0, 0, 0] (2 + 8)
        { emptySummary with sprite_tags := inc32 emptySummary.sprite_tags }
        0 (if (0 : Int) < 0 then 0 + 1 else 0) true ∧
    scan_stream 2 [193, 9, 0] 0 emptySummary 0 0 false =
      scan_stream 1 [193, 9, 0] (2 + 1)
        { emptySummary with total_tags := inc32 emptySummary.total_tags }
        0 (if (0 : Int) < 0 then 0 + 1 else 0) false ∧
    scan_stream 3 [200, 9, 1, 0, 1, 0, 64, 0, 0, 0] 0 emptySummary 0 0 false =
      scan_stream 2 [200, 9, 1, 0, 1, 0, 64, 0, 0, 0] (2 + 8)
        (scan_stream 2 (([200, 9, 1, 0, 1, 0, 64, 0, 0, 0].drop (2 + 4)).take (8 - 4)) 0
          { emptySummary with total_tags := inc32 emptySummary.total_tags,
                              sprite_count := inc32 emptySummary.sprite_count }
          0 (if (0 : Int) < 0 then 0 + 1 else 0) true).1
        0
        (scan_stream 2 (([200, 9, 1, 0, 1, 0, 64, 0, 0, 0].drop (2 + 4)).take (8 - 4)) 0
          { emptySummary with total_tags := inc32 emptySummary.total_tags,
                              sprite_count := inc32 emptySummary.sprite_count }
          0 (if (0 : Int) < 0 then 0 + 1 else 0) true).2
        false :=
  ⟨claim_C10_sprite_nesting.1 1 [200, 9, 0, 0, 0, 0, 0, 0, 0, 0] 0 emptySummary
     0 0 8 2 (by decide) (by decide) (by decide),
   claim_C10_sprite_nesting.2.1 1 [193, 9, 0] 0 emptySummary 0 0 1 2
     (by decide) (by decide) (by decide) (by decide),
   claim_C10_sprite_nesting.2.2 2 [200, 9, 1, 0, 1, 0, 64, 0, 0, 0] 0 emptySummary
     0 0 8 2 (by decide) (by decide) (by decide) (by decide)⟩

end Swf
